import Mathlib

/-!
Verification development for the per-user workspace lifecycle and
screenshot-capture subsystem of the `hopeless` repository.

The TypeScript sources are shallowly embedded:

* `src/unnamed/part_010` (Docker workspace provisioner): `spinUpContainer`,
  `stopContainer`, `cleanupUserContainers` over an explicit provisioner state
  (a docker world of containers plus the `activeContainers` tracking map).
* `src/unnamed/part_008` (Puppeteer capture service): the viewport-capture
  step sequence, the content-readiness DOM heuristic, and the Strategy-B
  desktop-capture polling loop.
* `src/server/mongodb.ts` (`MongoDBService.saveScreenshot` and retrieval).
* `src/server/db.ts` routes: `/api/container/spin-up` status mapping and
  the `/api/submit` capture-target URL.
* `src/client/src/pages/...` (`part_004`): the client-side `waitForCodespace`
  reachability poll.

JavaScript string operations are modelled at the character-list level
(`String.data`), which matches JS per-character semantics for the ASCII
strings the code manipulates.
-/

namespace Hopeless

/-! ### JS string primitives (char-list semantics) -/

/-- JS `s.startsWith(p)` as a character-list check. -/
def strStartsWith (s p : String) : Bool := p.data.isPrefixOf s.data

/-- JS `s.includes(p)` as a character-list check. -/
def strIncludes (s p : String) : Bool := decide (p.data <:+: s.data)

/-- JS `s.endsWith(p)` as a character-list check. -/
def strEndsWith (s p : String) : Bool := decide (p.data <:+ s.data)

/-- JS `s.trim()`: drop whitespace from both ends. -/
def strTrim (s : String) : String :=
  ⟨((s.data.dropWhile Char.isWhitespace).reverse.dropWhile Char.isWhitespace).reverse⟩

/-- JS `s.length` (character count). -/
def strLen (s : String) : Nat := s.data.length

/-- JS `s.substring(0, n)`. -/
def strTake (s : String) (n : Nat) : String := ⟨s.data.take n⟩

/-- JS `s.toLowerCase()` (ASCII-adequate). -/
def strToLower (s : String) : String := ⟨s.data.map Char.toLower⟩

/-! ### WorkspaceProvisioner state (src/unnamed/part_010)

The docker daemon's view is a list of `(containerId, running)` pairs; the
module-level `activeContainers : Map<number, string[]>` is an association
list from `userId` to the container ids tracked for that user. -/

/-- The docker daemon's containers: id paired with whether it is running. -/
abbrev DockerWorld := List (String × Bool)

/-- Lookup a container's running flag by id (first match). -/
def dockerFind : DockerWorld → String → Option Bool
  | [], _ => none
  | (i, r) :: w, cid => if i = cid then some r else dockerFind w cid

/-- Set a container's running flag (first match; no-op when absent). -/
def dockerSet : DockerWorld → String → Bool → DockerWorld
  | [], _, _ => []
  | (i, r) :: w, cid, b => if i = cid then (i, b) :: w else (i, r) :: dockerSet w cid b

/-- `container.stop()` (dockerode): succeeds on a running container, throws
(`404`/`304`) on an unknown or already-stopped one. -/
def dockerStop (w : DockerWorld) (cid : String) : Except Unit DockerWorld :=
  match dockerFind w cid with
  | some true => .ok (dockerSet w cid false)
  | _ => .error ()

/-- The container id is known to the docker daemon. -/
def containerExists (w : DockerWorld) (cid : String) : Prop :=
  (dockerFind w cid).isSome = true

/-- The container exists and is running. -/
def isRunning (w : DockerWorld) (cid : String) : Prop :=
  dockerFind w cid = some true

/-- The container exists and is stopped. -/
def isStopped (w : DockerWorld) (cid : String) : Prop :=
  dockerFind w cid = some false

instance (w : DockerWorld) (cid : String) : Decidable (containerExists w cid) := by
  unfold containerExists; infer_instance

instance (w : DockerWorld) (cid : String) : Decidable (isRunning w cid) := by
  unfold isRunning; infer_instance

instance (w : DockerWorld) (cid : String) : Decidable (isStopped w cid) := by
  unfold isStopped; infer_instance

/-- Association-list lookup for the `activeContainers` map. -/
def mapFind : List (Nat × List String) → Nat → Option (List String)
  | [], _ => none
  | (k, v) :: m, u => if k = u then some v else mapFind m u

/-- `activeContainers.delete(userId)`. -/
def mapErase : List (Nat × List String) → Nat → List (Nat × List String)
  | [], _ => []
  | (k, v) :: m, u => if k = u then mapErase m u else (k, v) :: mapErase m u

/-- `activeContainers.set(userId, v)`: replace if present, append otherwise. -/
def mapSet : List (Nat × List String) → Nat → List String → List (Nat × List String)
  | [], u, v => [(u, v)]
  | (k, w) :: m, u, v => if k = u then (k, v) :: m else (k, w) :: mapSet m u v

/-- Whole provisioner state: docker world plus the tracking map. -/
structure ProvState where
  docker : DockerWorld
  activeContainers : List (Nat × List String)
deriving DecidableEq

/-- The container ids currently tracked for a user
(`activeContainers.get(userId) || []`). -/
def tracked (s : ProvState) (u : Nat) : List String :=
  (mapFind s.activeContainers u).getD []

/-- One `try { await container.stop() } catch { ... }` iteration of
`cleanupUserContainers`: a failed stop is logged and ignored. -/
def stopIgnoringError (w : DockerWorld) (cid : String) : DockerWorld :=
  match dockerStop w cid with
  | .ok w2 => w2
  | .error _ => w

/-- `cleanupUserContainers(userId)`: stop every tracked container for the
user (tolerating failures), then clear the user's tracking entry. -/
def cleanupUserContainers (s : ProvState) (u : Nat) : ProvState :=
  { docker := (tracked s u).foldl stopIgnoringError s.docker,
    activeContainers := mapErase s.activeContainers u }

/-- Property keys every plain JS object inherits from `Object.prototype`.
The source's `subjectToImage` is a plain object literal (its
`Record<string, string>` annotation is erased at runtime), so the bracket
lookup `subjectToImage[subject]` finds these inherited members too — all of
them functions (or, for `__proto__`, an object), hence truthy. -/
def objectPrototypeKeys : List String :=
  ["constructor", "hasOwnProperty", "isPrototypeOf", "propertyIsEnumerable",
   "toLocaleString", "toString", "valueOf", "__defineGetter__",
   "__defineSetter__", "__lookupGetter__", "__lookupSetter__", "__proto__"]

/-- What the JS bracket lookup on the `subjectToImage` object yields. -/
inductive LookupResult
  | ownImage (img : String)
  | inherited
  | missingKey
deriving DecidableEq

/-- The `subjectToImage[subject]` lookup: an own key yields its docker image
name; a key inherited from `Object.prototype` yields that truthy non-string
member; anything else is `undefined` (falsy). -/
def subjectToImage (subject : String) : LookupResult :=
  if subject = "JavaScript" then .ownImage "codespace-javascript"
  else if subject = "Java" then .ownImage "codespace-java"
  else if subject = "C++" then .ownImage "codespace-cpp"
  else if subject = "Python" then .ownImage "codespace-python"
  else if subject ∈ objectPrototypeKeys then .inherited
  else .missingKey

/-- The supported language set in the order the source lists it. -/
def supportedSubjects : List String := ["JavaScript", "Java", "C++", "Python"]

/-- Errors `spinUpContainer` can throw. There is no timeout variant (the
function performs no reachability wait).  `createFailed` is the docker
daemon rejecting `createContainer` when the truthy inherited non-string
lookup result reaches it as `Image`. -/
inductive SpinErr
  | noImage (subject : String)
  | createFailed
  | noHostPort
deriving DecidableEq

/-- The `Error.message` strings of the spin-up failure modes.  The
`createFailed` text stands for the daemon's own error (its exact wording is
environmental); the only property relied on is that it is not the
`No Docker image defined` message. -/
def SpinErr.message : SpinErr → String
  | .noImage subject => "No Docker image defined for subject: " ++ subject
  | .createFailed => "(docker daemon) createContainer rejected: invalid Image"
  | .noHostPort => "❌ Could not determine mapped host port for container"

/-- `http://localhost:${port}` as the source's template literal builds it. -/
def localhostUrl (port : Nat) : String := "http://localhost:" ++ Nat.repr port

/-- Successful return value of `spinUpContainer`: `{ url, containerId }`. -/
structure ProvResult where
  url : String
  containerId : String
deriving DecidableEq

/-- Observable operations `spinUpContainer` performs, in order; used to
state ordering properties (e.g. cleanup happens before the image lookup,
and no reachability wait occurs at all). -/
inductive ProvStep
  | cleanupPrior
  | allocatePort
  | imageLookup
  | createContainer
  | startContainer
  | inspectPort
  | reachabilityWait
  | returnUrl
deriving DecidableEq

/-- Result of one `spinUpContainer` call: the state it leaves behind (state
mutations persist even when the call throws), the operations it performed,
and its return value or thrown error. -/
structure SpinUpOutcome where
  state : ProvState
  trace : List ProvStep
  result : Except SpinErr ProvResult

/-- Tracking update performed on success: `if (!activeContainers.has(userId))
activeContainers.set(userId, []); activeContainers.get(userId)!.push(id)`. -/
def trackContainer (m : List (Nat × List String)) (u : Nat) (cid : String) :
    List (Nat × List String) :=
  match mapFind m u with
  | none => mapSet m u [cid]
  | some l => mapSet m u (l ++ [cid])

/-- `spinUpContainer(subject, userId)` from `src/unnamed/part_010`.

The nondeterministic environment inputs are parameters: `hostPort` is the
free port `getPort()` returns, `newId` the id docker assigns to the created
container.  Faithful to the source order: (1) `cleanupUserContainers`,
(2) `getPort`, (3) the `subjectToImage[subject]` lookup with its
`if (!image) throw` guard — an `undefined` lookup throws, but a truthy
member inherited from `Object.prototype` (e.g. `subject = "toString"`)
passes the guard and the call proceeds to `docker.createContainer`, where
the non-string `Image` makes the daemon reject the create (nothing is
created), (4) otherwise `createContainer` + `start`, (5) `inspect` to read
the mapped host port (the binding created in step 4, hence present),
(6) build the url, track the container, and return.  No reachability probe
is performed anywhere. -/
def spinUpContainer (s : ProvState) (subject : String) (userId : Nat)
    (hostPort : Nat) (newId : String) : SpinUpOutcome :=
  let s1 := cleanupUserContainers s userId
  match subjectToImage subject with
  | .missingKey =>
      { state := s1,
        trace := [.cleanupPrior, .allocatePort, .imageLookup],
        result := .error (.noImage subject) }
  | .inherited =>
      { state := s1,
        trace := [.cleanupPrior, .allocatePort, .imageLookup, .createContainer],
        result := .error .createFailed }
  | .ownImage _image =>
      let docker1 : DockerWorld := (newId, true) :: s1.docker
      let hostMappedPort : Option Nat := some hostPort
      match hostMappedPort with
      | none =>
          { state := { docker := docker1, activeContainers := s1.activeContainers },
            trace := [.cleanupPrior, .allocatePort, .imageLookup, .createContainer,
                      .startContainer, .inspectPort],
            result := .error .noHostPort }
      | some p =>
          { state := { docker := docker1,
                       activeContainers := trackContainer s1.activeContainers userId newId },
            trace := [.cleanupPrior, .allocatePort, .imageLookup, .createContainer,
                      .startContainer, .inspectPort, .returnUrl],
            result := .ok { url := localhostUrl p, containerId := newId } }

/-- Body of `stopContainer` up to the point that can throw: stop the
container, then splice its id out of the first tracking entry containing it. -/
def untrack : List (Nat × List String) → String → List (Nat × List String)
  | [], _ => []
  | (u, l) :: m, cid =>
    if cid ∈ l then
      let l2 := l.erase cid
      if l2 = [] then m else (u, l2) :: m
    else (u, l) :: untrack m cid

/-- The fallible part of `stopContainer`. -/
def stopContainerCore (s : ProvState) (cid : String) : Except Unit ProvState :=
  match dockerStop s.docker cid with
  | .ok d => .ok { docker := d, activeContainers := untrack s.activeContainers cid }
  | .error e => .error e

/-- `stopContainer(containerId)`: the whole body sits in `try/catch`, so a
failed stop (unknown or already-stopped container) is logged and the call
resolves normally with the state unchanged. -/
def stopContainer (s : ProvState) (cid : String) : ProvState :=
  match stopContainerCore s cid with
  | .ok s2 => s2
  | .error _ => s

/-! ### ArtifactStore (src/server/mongodb.ts)

The `screenshots` collection is a list of saved documents; `createdAt` is the
insertion sequence number (insertion order equals chronological order). -/

/-- Payload handed to `saveScreenshot`; `image = none` models a missing
(`undefined`/`null`) payload, which is falsy in JS like the empty string. -/
structure ScreenshotData where
  userId : Nat
  image : Option String
  captureEvent : String
deriving DecidableEq

/-- A persisted screenshot document. -/
structure ScreenshotLog where
  userId : Nat
  image : String
  captureEvent : String
  createdAt : Nat
deriving DecidableEq

/-- `MongoDBService.saveScreenshot`: validate, then `insertOne`.  A missing
or empty payload fails the first guard (JS falsiness); a payload without the
`data:image/` data-URI tag fails the second.  Returns the collection after
the call together with the saved document or the thrown error message. -/
def saveScreenshot (store : List ScreenshotLog) (d : ScreenshotData) :
    List ScreenshotLog × Except String ScreenshotLog :=
  match d.image with
  | none => (store, .error "Invalid screenshot: image data is missing or not a string")
  | some img =>
    if strLen img = 0 then
      (store, .error "Invalid screenshot: image data is missing or not a string")
    else if !strStartsWith img "data:image/" then
      (store, .error "Invalid screenshot: image must include data URI prefix (data:image/...)")
    else
      let doc : ScreenshotLog :=
        { userId := d.userId, image := img, captureEvent := d.captureEvent,
          createdAt := store.length }
      (store ++ [doc], .ok doc)

/-- `MongoDBService.getScreenshots(userId?, limit)`: filter by user when
given, newest first (descending `createdAt` = reverse insertion), capped. -/
def getScreenshots (store : List ScreenshotLog) (userId : Option Nat) (limit : Nat) :
    List ScreenshotLog :=
  ((match userId with
    | some u => store.filter (fun (doc : ScreenshotLog) => doc.userId == u)
    | none => store).reverse).take limit

/-! ### RemoteEditorDriver and viewport capture (src/unnamed/part_008,
`captureScreenshot`) -/

/-- A button in the editor page DOM: its `textContent` and `aria-label`. -/
structure DomButton where
  text : String
  ariaLabel : String
deriving DecidableEq

/-- The editor page DOM as the capture code probes it. -/
structure EditorDOM where
  buttons : List DomButton
  hasPasswordInput : Bool
  /-- `textContent` of each `.monaco-editor .view-lines` node, in document order. -/
  viewLinesTexts : List String
  /-- `textContent` of each `.tab .label-name` node. -/
  tabNames : List String
  /-- `textContent` of each `.terminal .xterm-screen` node. -/
  terminalTexts : List String
  hasWorkbench : Bool
  hasExplorer : Bool
  hasActivityBar : Bool
deriving DecidableEq

/-- The trust-dialog matcher chain: aria-label attribute match, then
case-insensitive text match (the XPath and shadow-DOM strategies reduce to
the same text test on a flat DOM). -/
def findTrustButton (dom : EditorDOM) : Bool :=
  (dom.buttons.any fun b =>
    strIncludes b.ariaLabel "trust" && strIncludes b.ariaLabel "authors") ||
  (dom.buttons.any fun b =>
    strIncludes (strToLower b.text) "trust the authors")

/-- Result shape of the in-page content analysis. -/
structure ContentResult where
  found : Bool
  kind : String
  content : String
deriving DecidableEq

/-- The known placeholder strings the readiness check excludes. -/
def isPlaceholderText (content : String) : Bool :=
  strIncludes content "Get Started" || strIncludes content "Welcome" ||
  strIncludes content "Choose a language"

/-- The language-ish token heuristic of the readiness check. -/
def looksLikeCode (content : String) : Bool :=
  strIncludes content "function" || strIncludes content "console.log" ||
  strIncludes content "print(" || strIncludes content "public class" ||
  strIncludes content "#include" || strIncludes content "def " ||
  strIncludes content "=" || strIncludes content "\x7b" || strIncludes content ";"

/-- One `view-lines` node passes the monaco-code test when its trimmed text
is non-trivial, placeholder-free, and code-like. -/
def viewLinesMatch (t : String) : Option String :=
  let content := strTrim t
  if strLen content > 10 && (!isPlaceholderText content && looksLikeCode content) then
    some content
  else none

/-- Filename extensions the capture code treats as code files. -/
def isCodeFileName (t : String) : Bool :=
  strEndsWith t ".js" || strEndsWith t ".py" || strEndsWith t ".java" ||
  strEndsWith t ".cpp" || strEndsWith t ".html" || strEndsWith t ".css" ||
  strEndsWith t ".json" || strEndsWith t ".md"

/-- First branch of the analysis: a monaco editor with genuine code. -/
def monacoCodeResult (dom : EditorDOM) : Option ContentResult :=
  (dom.viewLinesTexts.findSome? viewLinesMatch).map fun c =>
    { found := true, kind := "monaco-code", content := strTake c 100 }

/-- Second branch: a code-file tab is open and the first editor viewport has
more than five characters. -/
def codeFileResult (dom : EditorDOM) : Option ContentResult :=
  if dom.tabNames.any isCodeFileName then
    match dom.viewLinesTexts.head? with
    | some t =>
      let content := strTrim t
      if strLen content > 5 then
        some { found := true, kind := "code-file", content := strTake content 100 }
      else none
    | none => none
  else none

/-- Third branch: a terminal with non-trivial text. -/
def terminalResult (dom : EditorDOM) : Option ContentResult :=
  (dom.terminalTexts.findSome? fun t =>
    if strLen (strTrim t) > 10 then some t else none).map fun t =>
      { found := true, kind := "terminal", content := strTake t 100 }

/-- Fourth branch: at least the workbench shell with explorer or sidebar. -/
def workspaceResult (dom : EditorDOM) : Option ContentResult :=
  if dom.hasWorkbench && (dom.hasExplorer || dom.hasActivityBar) then
    some { found := true, kind := "workspace", content := "VS Code workspace loaded" }
  else none

/-- The full `page.evaluate` content analysis of `captureScreenshot`:
monaco code, then code-file tab, then terminal, then bare workspace,
otherwise not found. -/
def hasContentCheck (dom : EditorDOM) : ContentResult :=
  (((monacoCodeResult dom).orElse fun _ =>
    (codeFileResult dom).orElse fun _ =>
      (terminalResult dom).orElse fun _ =>
        workspaceResult dom)).getD { found := false, kind := "none", content := "" }

/-- The observable stages of `captureScreenshot`, in the order the source
executes them. -/
inductive CaptureStep
  | navigate
  | trustDialogDismissal
  | authenticationProbe
  | workspaceSetup
  | contentReadiness
  | screenshot
deriving DecidableEq

/-- Environment of one viewport-capture call: the page DOM plus whether the
two hard-failure points (`page.goto`, `page.screenshot`) succeed. -/
structure PageWorld where
  dom : EditorDOM
  navOk : Bool
  shotOk : Bool
deriving DecidableEq

/-- Observable outcome of one `captureScreenshot` call. -/
structure CaptureRun where
  steps : List CaptureStep
  trustClicked : Bool
  loginSubmitted : Bool
  readiness : Option ContentResult
  success : Bool
deriving DecidableEq

/-- `PuppeteerScreenshotService.captureScreenshot`: navigation is the only
early hard failure; afterwards the trust-dialog handler, the authentication
probe, workspace setup and the content-readiness analysis each run inside
their own `try/catch` (soft), in that source order, and the screenshot is
taken regardless of the readiness verdict. -/
def captureScreenshotRun (w : PageWorld) : CaptureRun :=
  if !w.navOk then
    { steps := [.navigate], trustClicked := false, loginSubmitted := false,
      readiness := none, success := false }
  else
    { steps := [.navigate, .trustDialogDismissal, .authenticationProbe,
                .workspaceSetup, .contentReadiness, .screenshot],
      trustClicked := findTrustButton w.dom,
      loginSubmitted := w.dom.hasPasswordInput,
      readiness := some (hasContentCheck w.dom),
      success := w.shotOk }

/-- Position of a stage in a step list. -/
def stepIndex (st : CaptureStep) (l : List CaptureStep) : Nat :=
  l.findIdx (fun x => x == st)

/-! ### Strategy B: virtual-display capture (src/unnamed/part_008,
`captureDesktopScreen` / `captureDesktopAndSaveToMongoDB`) -/

/-- Environment of a desktop-capture attempt: what `window.capturedImageData`
and `window.captureError` hold when the k-th poll round evaluates them. -/
structure DesktopWorld where
  frameAt : Nat → Option String
  errorAt : Nat → Option String

/-- Terminal states of the polling loop. -/
inductive PollOutcome
  | frame (img : String)
  | scriptError (msg : String)
  | timedOut
deriving DecidableEq

/-- Instrumented run of the polling loop: outcome, rounds executed, and how
many times the grant trigger was re-clicked. -/
structure PollRun where
  outcome : PollOutcome
  rounds : Nat
  clicks : Nat
deriving DecidableEq

/-- The `while (attempts > 0 && !imageData)` loop: 8 rounds; each round reads
the page state, throws on a recorded error, accepts a frame only above the
1000-character floor, re-clicks the grant button once `attempts <= 5`, and
sleeps ~3s between rounds. -/
def pollLoop (w : DesktopWorld) : Nat → Nat → PollRun
  | _, 0 => { outcome := .timedOut, rounds := 0, clicks := 0 }
  | round, n + 1 =>
    match w.errorAt round with
    | some e => { outcome := .scriptError e, rounds := 1, clicks := 0 }
    | none =>
      match w.frameAt round with
      | some img =>
        if strLen img > 1000 then { outcome := .frame img, rounds := 1, clicks := 0 }
        else
          let rest := pollLoop w (round + 1) n
          { outcome := rest.outcome, rounds := rest.rounds + 1,
            clicks := rest.clicks + (if n + 1 ≤ 5 then 1 else 0) }
      | none =>
        let rest := pollLoop w (round + 1) n
        { outcome := rest.outcome, rounds := rest.rounds + 1,
          clicks := rest.clicks + (if n + 1 ≤ 5 then 1 else 0) }

/-- Result record of a desktop-capture attempt (`ScreenshotResult`). -/
structure CaptureResult where
  success : Bool
  filePath : Option String
  filename : Option String
  error : Option String
  containerUrl : String
  userId : Nat
  subject : String
deriving DecidableEq

/-- The staged filename `desktop-user-…-….jpg`. -/
def desktopFilename (userId : Nat) (subject captureEvent timestamp : String) : String :=
  "desktop-user-" ++ Nat.repr userId ++ "-" ++ subject ++ "-" ++ captureEvent ++
    "-" ++ timestamp ++ ".jpg"

/-- `captureDesktopScreen`: run the polling loop; on a frame, stage the file
and report success; a script error or exhausted retries is thrown and caught
by the outer handler, which returns `success: false` with the message. -/
def captureDesktopScreen (w : DesktopWorld) (userId : Nat)
    (subject captureEvent timestamp : String) : CaptureResult × PollRun :=
  let run := pollLoop w 0 8
  match run.outcome with
  | .frame _img =>
    let filename := desktopFilename userId subject captureEvent timestamp
    ({ success := true, filePath := some ("screenshots/" ++ filename),
       filename := some filename, error := none, containerUrl := "desktop-capture",
       userId := userId, subject := subject }, run)
  | .scriptError e =>
    ({ success := false, filePath := none, filename := none,
       error := some ("Desktop capture failed: " ++ e),
       containerUrl := "desktop-capture", userId := userId, subject := subject }, run)
  | .timedOut =>
    ({ success := false, filePath := none, filename := none,
       error := some "Desktop capture timed out - could not capture screen data",
       containerUrl := "desktop-capture", userId := userId, subject := subject }, run)

/-- The staged file holds the bytes of `imageData.split(',')[1]`; reading it
back and re-tagging gives this payload. -/
def stagedDataUri (img : String) : String :=
  "data:image/jpeg;base64," ++ ((img.splitOn ",").getD 1 "")

/-- `captureDesktopAndSaveToMongoDB`: persist to the store only when the
capture succeeded and a staged file exists; a store rejection downgrades the
result to failure.  Returns the result and the store after the call. -/
def captureDesktopAndSaveToMongoDB (w : DesktopWorld) (userId : Nat)
    (subject captureEvent timestamp : String) (store : List ScreenshotLog) :
    CaptureResult × List ScreenshotLog :=
  let out := captureDesktopScreen w userId subject captureEvent timestamp
  match out.2.outcome, out.1.filePath with
  | .frame img, some _ =>
    match saveScreenshot store
        { userId := userId, image := some (stagedDataUri img), captureEvent := captureEvent } with
    | (store2, .ok _) => (out.1, store2)
    | (store2, .error e) =>
      ({ out.1 with success := false, error := some ("MongoDB save failed: " ++ e) }, store2)
  | _, _ => (out.1, store)

/-! ### Routes (src/server/db.ts) and the client-side reachability wait
(src/unnamed/part_004) -/

/-- HTTP statuses the `/api/container/spin-up` route can answer with. -/
inductive HttpStatus
  | ok200
  | bad400
  | err500
deriving DecidableEq

/-- The `/api/container/spin-up` handler's status mapping: `200` with the
url on success; `400` when the thrown message starts with
`"No Docker image defined"`; `500` otherwise. -/
def containerSpinUpRoute (out : SpinUpOutcome) : HttpStatus :=
  match out.result with
  | .ok _ => .ok200
  | .error e =>
    if strStartsWith e.message "No Docker image defined" then .bad400 else .err500

/-- The capture target `/api/submit` computes:
`http://localhost:${8080 + userId}` — from the userId alone. -/
def submitContainerUrl (userId : Nat) : String := localhostUrl (8080 + userId)

/-- The client's `waitForCodespace` retry loop: poll `fetch(url)` once per
second (`reach k` tells whether the k-th probe succeeds) and give up as soon
as the elapsed time `1000·k` exceeds the 15000 ms timeout.  The fuel
parameter only bounds the recursion and is chosen large enough (17) that the
timeout test always fires first. -/
def waitLoop (reach : Nat → Bool) (timeoutMs : Nat) : Nat → Nat → Bool
  | 0, _ => false
  | fuel + 1, k =>
    if 1000 * k > timeoutMs then false
    else if reach k then true
    else waitLoop reach timeoutMs fuel (k + 1)

/-- `waitForCodespace(url)` with its default 15000 ms timeout. -/
def waitForCodespace (reach : Nat → Bool) : Bool :=
  waitLoop reach 15000 17 0

/-! ### Helper lemmas: tracking map and docker world -/

@[simp]
theorem mapFind_mapErase_self (m : List (Nat × List String)) (u : Nat) :
    mapFind (mapErase m u) u = none := by
  induction m with
  | nil => rfl
  | cons kv m ih =>
    obtain ⟨k, v⟩ := kv
    by_cases h : k = u <;> simp [mapErase, mapFind, h, ih]

@[simp]
theorem mapFind_mapSet_self (m : List (Nat × List String)) (u : Nat) (v : List String) :
    mapFind (mapSet m u v) u = some v := by
  induction m with
  | nil => simp [mapSet, mapFind]
  | cons kv m ih =>
    obtain ⟨k, w⟩ := kv
    by_cases h : k = u <;> simp [mapSet, mapFind, h, ih]

theorem mapFind_trackContainer_self (m : List (Nat × List String)) (u : Nat) (cid : String) :
    mapFind (trackContainer m u cid) u =
      some (((mapFind m u).getD []) ++ [cid]) := by
  unfold trackContainer
  cases h : mapFind m u <;> simp [h]

theorem dockerFind_dockerSet_self (w : DockerWorld) (cid : String) (b : Bool) :
    dockerFind (dockerSet w cid b) cid = (dockerFind w cid).map (fun _ => b) := by
  induction w with
  | nil => rfl
  | cons ir w ih =>
    obtain ⟨i, r⟩ := ir
    by_cases h : i = cid <;> simp [dockerSet, dockerFind, h, ih]

theorem dockerFind_dockerSet_other {i cid : String} (w : DockerWorld) (b : Bool)
    (h : i ≠ cid) : dockerFind (dockerSet w i b) cid = dockerFind w cid := by
  induction w with
  | nil => rfl
  | cons jr w ih =>
    obtain ⟨j, r⟩ := jr
    by_cases hj : j = i
    · subst hj; simp [dockerSet, dockerFind, h, ih]
    · simp [dockerSet, dockerFind, hj, ih]

theorem stopIgnoringError_find_other {i cid : String} (w : DockerWorld) (h : i ≠ cid) :
    dockerFind (stopIgnoringError w i) cid = dockerFind w cid := by
  unfold stopIgnoringError dockerStop
  cases hfind : dockerFind w i with
  | none => simp
  | some b => cases b <;> simp [dockerFind_dockerSet_other w false h]

theorem stopIgnoringError_preserves_stopped {cid : String} (w : DockerWorld) (i : String)
    (h : dockerFind w cid = some false) :
    dockerFind (stopIgnoringError w i) cid = some false := by
  by_cases hic : i = cid
  · subst hic
    unfold stopIgnoringError dockerStop
    simp [h]
  · rw [stopIgnoringError_find_other w hic, h]

theorem stopIgnoringError_self_running {cid : String} (w : DockerWorld)
    (h : dockerFind w cid = some true) :
    dockerFind (stopIgnoringError w cid) cid = some false := by
  unfold stopIgnoringError dockerStop
  simp [h, dockerFind_dockerSet_self]

theorem stopIgnoringError_isSome (w : DockerWorld) (i cid : String) :
    (dockerFind (stopIgnoringError w i) cid).isSome = (dockerFind w cid).isSome := by
  by_cases hic : i = cid
  · subst hic
    unfold stopIgnoringError dockerStop
    cases hfind : dockerFind w i with
    | none => simp [hfind]
    | some b => cases b <;> simp [hfind, dockerFind_dockerSet_self]
  · rw [stopIgnoringError_find_other w hic]

theorem foldl_stop_preserves_stopped {cid : String} (ids : List String) (w : DockerWorld)
    (h : dockerFind w cid = some false) :
    dockerFind (ids.foldl stopIgnoringError w) cid = some false := by
  induction ids generalizing w with
  | nil => exact h
  | cons a ids ih =>
    exact ih _ (stopIgnoringError_preserves_stopped w a h)

theorem foldl_stop_stops_mem {cid : String} (ids : List String) (w : DockerWorld)
    (hmem : cid ∈ ids) (h : dockerFind w cid = some true) :
    dockerFind (ids.foldl stopIgnoringError w) cid = some false := by
  induction ids generalizing w with
  | nil => cases hmem
  | cons a ids ih =>
    by_cases hac : a = cid
    · subst hac
      exact foldl_stop_preserves_stopped ids _ (stopIgnoringError_self_running w h)
    · rcases List.mem_cons.mp hmem with hca | hca
      · exact absurd hca.symm hac
      · exact ih _ hca ((stopIgnoringError_find_other w hac).trans h)

theorem foldl_stop_isSome (ids : List String) (w : DockerWorld) (cid : String) :
    (dockerFind (ids.foldl stopIgnoringError w) cid).isSome = (dockerFind w cid).isSome := by
  induction ids generalizing w with
  | nil => rfl
  | cons a ids ih =>
    exact (ih _).trans (stopIgnoringError_isSome w a cid)

theorem subjectToImage_eq_missingKey_iff (subject : String) :
    subjectToImage subject = .missingKey ↔
      subject ∉ supportedSubjects ∧ subject ∉ objectPrototypeKeys := by
  unfold subjectToImage supportedSubjects
  split_ifs with h1 h2 h3 h4 h5 <;> simp_all

theorem mem_supported_of_ownImage {subject img : String}
    (h : subjectToImage subject = .ownImage img) : subject ∈ supportedSubjects := by
  unfold subjectToImage at h
  split_ifs at h <;> simp_all [supportedSubjects]

theorem spinUpContainer_of_missingKey {subject : String}
    (h : subjectToImage subject = .missingKey) (s : ProvState) (u p : Nat) (id : String) :
    spinUpContainer s subject u p id =
      { state := cleanupUserContainers s u,
        trace := [.cleanupPrior, .allocatePort, .imageLookup],
        result := .error (.noImage subject) } := by
  unfold spinUpContainer
  rw [h]

theorem spinUpContainer_of_inherited {subject : String}
    (h : subjectToImage subject = .inherited) (s : ProvState) (u p : Nat) (id : String) :
    spinUpContainer s subject u p id =
      { state := cleanupUserContainers s u,
        trace := [.cleanupPrior, .allocatePort, .imageLookup, .createContainer],
        result := .error .createFailed } := by
  unfold spinUpContainer
  rw [h]

theorem spinUpContainer_of_some {subject img : String}
    (h : subjectToImage subject = .ownImage img) (s : ProvState) (u p : Nat) (id : String) :
    spinUpContainer s subject u p id =
      { state := { docker := (id, true) :: (cleanupUserContainers s u).docker,
                   activeContainers :=
                     trackContainer (mapErase s.activeContainers u) u id },
        trace := [.cleanupPrior, .allocatePort, .imageLookup, .createContainer,
                  .startContainer, .inspectPort, .returnUrl],
        result := .ok { url := localhostUrl p, containerId := id } } := by
  unfold spinUpContainer
  rw [h]
  rfl

theorem subjectToImage_of_mem {subject : String} (h : subject ∈ supportedSubjects) :
    ∃ img, subjectToImage subject = .ownImage img := by
  simp only [supportedSubjects, List.mem_cons, List.not_mem_nil, or_false] at h
  rcases h with h | h | h | h <;> subst h <;> exact ⟨_, rfl⟩

theorem tracked_spinUpContainer {subject : String}
    (h : subject ∈ supportedSubjects) (s : ProvState) (u p : Nat) (id : String) :
    tracked (spinUpContainer s subject u p id).state u = [id] := by
  obtain ⟨img, himg⟩ := subjectToImage_of_mem h
  rw [spinUpContainer_of_some himg]
  unfold tracked
  rw [mapFind_trackContainer_self, mapFind_mapErase_self]
  rfl

theorem strStartsWith_append {a p : String} (b : String) (h : strStartsWith a p = true) :
    strStartsWith (a ++ b) p = true := by
  unfold strStartsWith at *
  rw [List.isPrefixOf_iff_prefix] at *
  have hdata : (a ++ b).data = a.data ++ b.data := rfl
  rw [hdata]
  exact h.trans (List.prefix_append _ _)

/-! ### Claim theorems: provisioner -/

/-- C8: `release` (`stopContainer`) is idempotent.  The whole body sits in a
`try/catch`, so the call always resolves; the second call on the same id
finds the container already stopped (or never knew it) and its
`container.stop()` throw is swallowed, leaving the state exactly as the
first call left it — a no-op, not an error. -/
theorem stopContainer_idempotent (s : ProvState) (cid : String) :
    stopContainer (stopContainer s cid) cid = stopContainer s cid := by
  cases hfind : dockerFind s.docker cid with
  | none =>
    have h : stopContainer s cid = s := by
      unfold stopContainer stopContainerCore dockerStop
      simp [hfind]
    rw [h, h]
  | some b =>
    cases b with
    | false =>
      have h : stopContainer s cid = s := by
        unfold stopContainer stopContainerCore dockerStop
        simp [hfind]
      rw [h, h]
    | true =>
      have h1 : stopContainer s cid =
          { docker := dockerSet s.docker cid false,
            activeContainers := untrack s.activeContainers cid } := by
        unfold stopContainer stopContainerCore dockerStop
        simp [hfind]
      have h2 : dockerFind (dockerSet s.docker cid false) cid = some false := by
        rw [dockerFind_dockerSet_self, hfind]; rfl
      rw [h1]
      unfold stopContainer stopContainerCore dockerStop
      simp [h2]

/-- Whether a spin-up outcome failed specifically with the
`No Docker image defined` throw of the language check. -/
def isNoImageError : Except SpinErr ProvResult → Bool
  | .error (.noImage _) => true
  | _ => false

/-- Counterexample for C9: for the unsupported language value `"toString"`
the `subjectToImage` lookup finds the truthy member inherited from
`Object.prototype`, so the language check does not fail — the call proceeds
past the image lookup to the container-create attempt instead of throwing
the `No Docker image defined` error. -/
theorem destroys_before_validate_counterexample :
    "toString" ∉ supportedSubjects ∧
    isNoImageError (spinUpContainer ⟨[("c0", true)], [(2, ["c0"])]⟩ "toString" 2 4001
      "c3").result = false ∧
    (spinUpContainer ⟨[("c0", true)], [(2, ["c0"])]⟩ "toString" 2 4001 "c3").trace ≠
      [.cleanupPrior, .allocatePort, .imageLookup] := by
  decide

/-- C9 amended: provisioning destroys before it validates.  A
`spinUpContainer` call with any unsupported language runs
`cleanupUserContainers` first — any previously tracked running container of
the user is stopped and the user's tracking entry is cleared before the
image lookup — and the call then fails: at the language check for an
`undefined` lookup, or (for `Object.prototype` key names, which slip past
the check) at the container create.  Either way the failed attempt leaves
the provisioning state changed. -/
theorem spinUp_unsupported_destroys_prior (s : ProvState) (subject : String)
    (u p : Nat) (id c : String)
    (hunsupported : subject ∉ supportedSubjects)
    (hc : c ∈ tracked s u) (hrun : isRunning s.docker c) :
    (spinUpContainer s subject u p id).result.isOk = false ∧
    (spinUpContainer s subject u p id).trace.take 3 =
      [.cleanupPrior, .allocatePort, .imageLookup] ∧
    mapFind (spinUpContainer s subject u p id).state.activeContainers u = none ∧
    isStopped (spinUpContainer s subject u p id).state.docker c := by
  cases himg : subjectToImage subject with
  | ownImage img => exact absurd (mem_supported_of_ownImage himg) hunsupported
  | missingKey =>
    rw [spinUpContainer_of_missingKey himg]
    exact ⟨rfl, rfl, mapFind_mapErase_self _ _, foldl_stop_stops_mem _ _ hc hrun⟩
  | inherited =>
    rw [spinUpContainer_of_inherited himg]
    exact ⟨rfl, rfl, mapFind_mapErase_self _ _, foldl_stop_stops_mem _ _ hc hrun⟩

/-- C5 (code bug), evaluated at the failing input: the client-reachable
language value `"toString"` is outside the supported set, yet the plain
object lookup `subjectToImage["toString"]` inherits a truthy
`Object.prototype` member, so the `No Docker image defined` throw the route
comments promise ("spinUpContainer will throw if the language is not
supported" / "400 for unsupported language") is skipped: the call proceeds
to the container create, fails there with a daemon error, and the route
answers `500` instead of the claimed client-correctable `400`.  Nothing is
created or tracked by the failed call. -/
theorem spinUp_prototype_key_bypasses_check :
    "toString" ∉ supportedSubjects ∧
    isNoImageError (spinUpContainer ⟨[], []⟩ "toString" 1 4000 "c1").result = false ∧
    containerSpinUpRoute (spinUpContainer ⟨[], []⟩ "toString" 1 4000 "c1") = .err500 ∧
    (spinUpContainer ⟨[], []⟩ "toString" 1 4000 "c1").trace =
      [.cleanupPrior, .allocatePort, .imageLookup, .createContainer] ∧
    (spinUpContainer ⟨[], []⟩ "toString" 1 4000 "c1").state.docker = [] ∧
    mapFind (spinUpContainer ⟨[], []⟩ "toString" 1 4000
      "c1").state.activeContainers 1 = none := by
  decide

/-- For unsupported languages that are not `Object.prototype` key names the
route contract does hold: the lookup is `undefined`, the language check
throws `No Docker image defined`, the route answers the client-correctable
`400`, and the failed call creates and tracks nothing. -/
theorem spinUp_missingKey_client_correctable (s : ProvState) (subject : String)
    (u p : Nat) (id c : String)
    (hmissing : subjectToImage subject = .missingKey) :
    (spinUpContainer s subject u p id).result = .error (.noImage subject) ∧
    containerSpinUpRoute (spinUpContainer s subject u p id) = .bad400 ∧
    (containerExists (spinUpContainer s subject u p id).state.docker c ↔
      containerExists s.docker c) ∧
    mapFind (spinUpContainer s subject u p id).state.activeContainers u = none := by
  rw [spinUpContainer_of_missingKey hmissing]
  refine ⟨rfl, ?_, ?_, ?_⟩
  · unfold containerSpinUpRoute
    have hpre : strStartsWith (SpinErr.message (.noImage subject))
        "No Docker image defined" = true := by
      unfold SpinErr.message
      exact strStartsWith_append subject (by decide)
    simp [hpre]
  · unfold containerExists cleanupUserContainers
    rw [foldl_stop_isSome]
  · exact mapFind_mapErase_self _ _

/-- Witness for C9: user 1 has the running container `c0` tracked; a
provision attempt with the unsupported language `Rust` fails, yet `c0` is
stopped and untracked. -/
theorem spinUp_unsupported_destroys_prior_witness :
    (spinUpContainer ⟨[("c0", true)], [(1, ["c0"])]⟩ "Rust" 1 4000 "c1").result.isOk
        = false ∧
    (spinUpContainer ⟨[("c0", true)], [(1, ["c0"])]⟩ "Rust" 1 4000 "c1").trace.take 3 =
        [.cleanupPrior, .allocatePort, .imageLookup] ∧
    mapFind (spinUpContainer ⟨[("c0", true)], [(1, ["c0"])]⟩ "Rust" 1 4000
        "c1").state.activeContainers 1 = none ∧
    isStopped (spinUpContainer ⟨[("c0", true)], [(1, ["c0"])]⟩ "Rust" 1 4000
        "c1").state.docker "c0" :=
  spinUp_unsupported_destroys_prior ⟨[("c0", true)], [(1, ["c0"])]⟩ "Rust" 1 4000
    "c1" "c0" (by decide) (by decide) (by decide)

/-- C2: two successive successful `spinUpContainer` calls for the same user
leave exactly one tracked instance — the second call's container, which is
running — while the instance tracked between the calls (the first call's
container) has been stopped by the second call's `cleanupUserContainers`. -/
theorem provision_twice_one_live (s : ProvState) (subj1 subj2 : String)
    (u p1 p2 : Nat) (id1 id2 : String)
    (hsub1 : subj1 ∈ supportedSubjects) (hsub2 : subj2 ∈ supportedSubjects)
    (hfresh : ¬ containerExists (spinUpContainer s subj1 u p1 id1).state.docker id2) :
    tracked (spinUpContainer s subj1 u p1 id1).state u = [id1] ∧
    tracked (spinUpContainer (spinUpContainer s subj1 u p1 id1).state
      subj2 u p2 id2).state u = [id2] ∧
    isRunning (spinUpContainer (spinUpContainer s subj1 u p1 id1).state
      subj2 u p2 id2).state.docker id2 ∧
    isStopped (spinUpContainer (spinUpContainer s subj1 u p1 id1).state
      subj2 u p2 id2).state.docker id1 := by
  obtain ⟨img1, h1⟩ := subjectToImage_of_mem hsub1
  obtain ⟨img2, h2⟩ := subjectToImage_of_mem hsub2
  rw [spinUpContainer_of_some h1 s u p1 id1] at hfresh ⊢
  rw [spinUpContainer_of_some h2 _ u p2 id2]
  have hne : id2 ≠ id1 := by
    intro he
    apply hfresh
    subst he
    unfold containerExists dockerFind
    simp
  have ht1 : tracked
      { docker := (id1, true) :: (cleanupUserContainers s u).docker,
        activeContainers := trackContainer (mapErase s.activeContainers u) u id1 } u =
      [id1] := by
    unfold tracked
    rw [mapFind_trackContainer_self, mapFind_mapErase_self]
    rfl
  refine ⟨ht1, ?_, ?_, ?_⟩
  · unfold tracked
    rw [mapFind_trackContainer_self, mapFind_mapErase_self]
    rfl
  · unfold isRunning dockerFind
    simp
  · unfold isStopped
    simp only [dockerFind, if_neg hne]
    have hdocker : (cleanupUserContainers
        { docker := (id1, true) :: (cleanupUserContainers s u).docker,
          activeContainers := trackContainer (mapErase s.activeContainers u) u id1 }
        u).docker =
        stopIgnoringError ((id1, true) :: (cleanupUserContainers s u).docker) id1 := by
      have hproj : (cleanupUserContainers
          { docker := (id1, true) :: (cleanupUserContainers s u).docker,
            activeContainers := trackContainer (mapErase s.activeContainers u) u id1 }
          u).docker =
          (tracked
            { docker := (id1, true) :: (cleanupUserContainers s u).docker,
              activeContainers := trackContainer (mapErase s.activeContainers u) u id1 }
            u).foldl stopIgnoringError
            ((id1, true) :: (cleanupUserContainers s u).docker) := rfl
      rw [hproj, ht1]
      rfl
    rw [hdocker]
    exact stopIgnoringError_self_running _ (by simp [dockerFind])

/-- Witness for C2: empty initial state, `Python` then `Java` for user 1. -/
theorem provision_twice_one_live_witness :
    tracked (spinUpContainer ⟨[], []⟩ "Python" 1 4000 "c1").state 1 = ["c1"] ∧
    tracked (spinUpContainer (spinUpContainer ⟨[], []⟩ "Python" 1 4000 "c1").state
      "Java" 1 4001 "c2").state 1 = ["c2"] ∧
    isRunning (spinUpContainer (spinUpContainer ⟨[], []⟩ "Python" 1 4000 "c1").state
      "Java" 1 4001 "c2").state.docker "c2" ∧
    isStopped (spinUpContainer (spinUpContainer ⟨[], []⟩ "Python" 1 4000 "c1").state
      "Java" 1 4001 "c2").state.docker "c1" :=
  provision_twice_one_live ⟨[], []⟩ "Python" "Java" 1 4000 4001 "c1" "c2"
    (by decide) (by decide) (by decide)

/-! ### Claim theorems: artifact store -/

/-- C3: `saveScreenshot` is a hard validation gate.  Whenever the image
payload is missing, zero-length, or lacks the `data:image/` data-URI tag,
the call throws and the `screenshots` collection is left exactly as it was,
so no document becomes retrievable under any identifier; in particular every
`getScreenshots` query answers as before. -/
theorem saveScreenshot_rejects_invalid (store : List ScreenshotLog)
    (d : ScreenshotData)
    (hbad : d.image = none ∨ d.image = some "" ∨
      (∀ img, d.image = some img → strStartsWith img "data:image/" = false)) :
    (saveScreenshot store d).1 = store ∧
    (saveScreenshot store d).2.isOk = false ∧
    getScreenshots (saveScreenshot store d).1 (some d.userId) store.length =
      getScreenshots store (some d.userId) store.length := by
  have hfst : (saveScreenshot store d).1 = store ∧ (saveScreenshot store d).2.isOk = false := by
    unfold saveScreenshot
    rcases hbad with hnone | hempty | htag
    · rw [hnone]
      exact ⟨rfl, rfl⟩
    · rw [hempty]
      simp [strLen, Except.isOk, Except.toBool]
    · cases himg : d.image with
      | none => exact ⟨rfl, rfl⟩
      | some img =>
        have := htag img himg
        by_cases hlen : strLen img = 0 <;>
          simp [hlen, this, Except.isOk, Except.toBool]
  exact ⟨hfst.1, hfst.2, by rw [hfst.1]⟩

/-- Witness for C3: a payload without the data-URI tag is rejected and the
store stays empty. -/
theorem saveScreenshot_rejects_invalid_witness :
    (saveScreenshot [] { userId := 7, image := some "hello", captureEvent := "manual" }).1 = [] ∧
    (saveScreenshot [] { userId := 7, image := some "hello", captureEvent := "manual" }).2.isOk
      = false ∧
    getScreenshots (saveScreenshot []
        { userId := 7, image := some "hello", captureEvent := "manual" }).1 (some 7)
        (List.length ([] : List ScreenshotLog)) =
      getScreenshots [] (some 7) (List.length ([] : List ScreenshotLog)) :=
  saveScreenshot_rejects_invalid [] { userId := 7, image := some "hello", captureEvent := "manual" }
    (Or.inr (Or.inr (by intro img h; cases h; decide)))

/-! ### Claim theorems: Strategy B desktop capture -/

theorem pollLoop_never_resolves (w : DesktopWorld)
    (hframe : ∀ k, w.frameAt k = none) (herror : ∀ k, w.errorAt k = none) :
    ∀ a r : Nat, pollLoop w r a =
      { outcome := .timedOut, rounds := a, clicks := min a 5 } := by
  intro a
  induction a with
  | zero => intro r; rfl
  | succ n ih =>
    intro r
    simp only [pollLoop, herror, hframe, ih]
    refine congrArg (PollRun.mk .timedOut (n + 1)) ?_
    split_ifs <;> omega

/-- C6: with a display-media grant that never resolves, the Strategy-B
engine polls exactly 8 bounded rounds, re-clicking the grant trigger on the
last 5 of them, then throws the capture-timeout error; the outer handler
turns that into `success: false` carrying the timeout message, and
`captureDesktopAndSaveToMongoDB` persists nothing — the screenshot store
after the attempt equals the store before it. -/
theorem strategyB_timeout_no_artifacts (w : DesktopWorld) (userId : Nat)
    (subject captureEvent timestamp : String) (store : List ScreenshotLog)
    (hframe : ∀ k, w.frameAt k = none) (herror : ∀ k, w.errorAt k = none) :
    (captureDesktopAndSaveToMongoDB w userId subject captureEvent timestamp
      store).1.success = false ∧
    (captureDesktopAndSaveToMongoDB w userId subject captureEvent timestamp
      store).1.error = some "Desktop capture timed out - could not capture screen data" ∧
    (captureDesktopAndSaveToMongoDB w userId subject captureEvent timestamp
      store).2 = store ∧
    (pollLoop w 0 8).rounds = 8 ∧
    (pollLoop w 0 8).clicks = 5 := by
  have hpoll := pollLoop_never_resolves w hframe herror 8 0
  have hcap : captureDesktopScreen w userId subject captureEvent timestamp =
      ({ success := false, filePath := none, filename := none,
         error := some "Desktop capture timed out - could not capture screen data",
         containerUrl := "desktop-capture", userId := userId, subject := subject },
       { outcome := .timedOut, rounds := 8, clicks := min 8 5 }) := by
    unfold captureDesktopScreen
    rw [hpoll]
  unfold captureDesktopAndSaveToMongoDB
  rw [hcap]
  refine ⟨rfl, rfl, rfl, ?_, ?_⟩ <;> simp [hpoll]

/-- The environment in which neither the frame data nor an error ever
appears: the grant never resolves. -/
def neverResolvingWorld : DesktopWorld :=
  { frameAt := fun _ => none, errorAt := fun _ => none }

/-- Witness for C6 in the never-resolving environment, starting from an
empty store. -/
theorem strategyB_timeout_no_artifacts_witness :
    (captureDesktopAndSaveToMongoDB neverResolvingWorld 3 "desktop" "manual" "t0"
      []).1.success = false ∧
    (captureDesktopAndSaveToMongoDB neverResolvingWorld 3 "desktop" "manual" "t0"
      []).1.error = some "Desktop capture timed out - could not capture screen data" ∧
    (captureDesktopAndSaveToMongoDB neverResolvingWorld 3 "desktop" "manual" "t0"
      []).2 = [] ∧
    (pollLoop neverResolvingWorld 0 8).rounds = 8 ∧
    (pollLoop neverResolvingWorld 0 8).clicks = 5 :=
  strategyB_timeout_no_artifacts neverResolvingWorld 3 "desktop" "manual" "t0" []
    (fun _ => rfl) (fun _ => rfl)

/-! ### Claim theorems: viewport capture -/

/-- A minimal page DOM for exercising the capture step sequence. -/
def emptyEditorDom : EditorDOM :=
  { buttons := [], hasPasswordInput := false, viewLinesTexts := [], tabNames := [],
    terminalTexts := [], hasWorkbench := false, hasExplorer := false,
    hasActivityBar := false }

/-- The ordering the spec asserts (stated from the spec's words, as the
refinement target): the authentication probe (its step 2) runs before
trust-dialog dismissal (its step 3). -/
def specAuthBeforeTrust (r : CaptureRun) : Prop :=
  stepIndex .authenticationProbe r.steps < stepIndex .trustDialogDismissal r.steps

instance (r : CaptureRun) : Decidable (specAuthBeforeTrust r) := by
  unfold specAuthBeforeTrust; infer_instance

/-- Counterexample for C4: on a successfully navigated page the source runs
the trust-dialog handler (lines 370–444 of the capture service) before the
code-server authentication probe (lines 450–470), so the spec's order is
false already on a minimal page. -/
theorem auth_before_trust_counterexample :
    ¬ specAuthBeforeTrust (captureScreenshotRun
      { dom := emptyEditorDom, navOk := true, shotOk := true }) := by
  decide

/-- C4 amended: after navigation, trust-dialog dismissal runs before the
authentication probe (the source order is the reverse of the spec's steps 2
and 3); both stages do run on every successfully navigated capture. -/
theorem trust_before_auth (w : PageWorld) (hnav : w.navOk = true) :
    stepIndex .trustDialogDismissal (captureScreenshotRun w).steps <
      stepIndex .authenticationProbe (captureScreenshotRun w).steps ∧
    CaptureStep.trustDialogDismissal ∈ (captureScreenshotRun w).steps ∧
    CaptureStep.authenticationProbe ∈ (captureScreenshotRun w).steps := by
  have hsteps : (captureScreenshotRun w).steps =
      [.navigate, .trustDialogDismissal, .authenticationProbe, .workspaceSetup,
       .contentReadiness, .screenshot] := by
    unfold captureScreenshotRun
    rw [hnav]
    rfl
  rw [hsteps]
  exact ⟨by decide, by decide, by decide⟩

/-- Witness for C4's amended claim on the minimal page. -/
theorem trust_before_auth_witness :
    stepIndex .trustDialogDismissal (captureScreenshotRun
      { dom := emptyEditorDom, navOk := true, shotOk := true }).steps <
      stepIndex .authenticationProbe (captureScreenshotRun
      { dom := emptyEditorDom, navOk := true, shotOk := true }).steps ∧
    CaptureStep.trustDialogDismissal ∈ (captureScreenshotRun
      { dom := emptyEditorDom, navOk := true, shotOk := true }).steps ∧
    CaptureStep.authenticationProbe ∈ (captureScreenshotRun
      { dom := emptyEditorDom, navOk := true, shotOk := true }).steps :=
  trust_before_auth { dom := emptyEditorDom, navOk := true, shotOk := true } rfl

/-- An editor DOM whose view-lines text contains `function isPrime(num)`. -/
def isPrimeEditorDom : EditorDOM :=
  { buttons := [], hasPasswordInput := false,
    viewLinesTexts := ["function isPrime(num) if (num <= 1) return false; return true;"],
    tabNames := ["script.js"], terminalTexts := [], hasWorkbench := true,
    hasExplorer := true, hasActivityBar := true }

/-- An editor DOM showing only the placeholder texts. -/
def placeholderEditorDom : EditorDOM :=
  { buttons := [], hasPasswordInput := false,
    viewLinesTexts := ["Welcome", "Get Started"],
    tabNames := ["Welcome", "Get Started"], terminalTexts := [],
    hasWorkbench := false, hasExplorer := false, hasActivityBar := false }

/-- C7: the readiness check reports content found on a view-lines text
containing `function isPrime(num)`, and content not found on placeholder-only
text — and in both cases the capture still proceeds to the screenshot stage
and the operation returns `success: true` (readiness misses never abort). -/
theorem content_readiness_soft :
    strIncludes ((isPrimeEditorDom.viewLinesTexts.headD "")) "function isPrime(num)"
      = true ∧
    (hasContentCheck isPrimeEditorDom).found = true ∧
    (hasContentCheck placeholderEditorDom).found = false ∧
    (captureScreenshotRun { dom := isPrimeEditorDom, navOk := true, shotOk := true }).success
      = true ∧
    (captureScreenshotRun { dom := placeholderEditorDom, navOk := true, shotOk := true }).success
      = true ∧
    CaptureStep.screenshot ∈ (captureScreenshotRun
      { dom := placeholderEditorDom, navOk := true, shotOk := true }).steps := by
  decide

/-! ### Claim theorems: provisioning returns without a reachability wait -/

/-- The behaviour the spec asserts of `provision` (refinement target, stated
from the spec's words): a call that returns an `editorUrl` has performed a
network-reachability wait before returning. -/
def specProvisionWaits (out : SpinUpOutcome) : Prop :=
  out.result.isOk = true → ProvStep.reachabilityWait ∈ out.trace

instance (out : SpinUpOutcome) : Decidable (specProvisionWaits out) := by
  unfold specProvisionWaits; infer_instance

/-- Counterexample for C1: a concrete successful `spinUpContainer` call
returns its url with no reachability wait anywhere in its trace (and its
error type has no timeout variant at all). -/
theorem provision_waits_counterexample :
    ¬ specProvisionWaits (spinUpContainer ⟨[], []⟩ "Python" 1 4000 "c1") := by
  decide

theorem waitLoop_never (reach : Nat → Bool) (t : Nat) (h : ∀ k, reach k = false) :
    ∀ fuel k, waitLoop reach t fuel k = false := by
  intro fuel
  induction fuel with
  | zero => intro k; rfl
  | succ f ih =>
    intro k
    unfold waitLoop
    rw [h k]
    by_cases hk : 1000 * k > t <;> simp [hk, ih]

/-- C1 amended: for a supported language `spinUpContainer` allocates the
free port, starts the container, and returns `http://localhost:<hostPort>`
immediately — no reachability wait appears in its trace and no timeout error
exists — while the ~15 s bounded 1 s-interval reachability retry happens on
the client in `waitForCodespace` after provision returns; when the instance
never becomes reachable that poll resolves `false` and the container is left
running. -/
theorem provision_returns_immediately_client_waits (s : ProvState)
    (subject : String) (u p : Nat) (id : String)
    (hsub : subject ∈ supportedSubjects)
    (reach : Nat → Bool) (hreach : ∀ k, reach k = false) :
    (spinUpContainer s subject u p id).result =
      .ok { url := localhostUrl p, containerId := id } ∧
    ProvStep.reachabilityWait ∉ (spinUpContainer s subject u p id).trace ∧
    isRunning (spinUpContainer s subject u p id).state.docker id ∧
    waitForCodespace reach = false := by
  obtain ⟨img, himg⟩ := subjectToImage_of_mem hsub
  rw [spinUpContainer_of_some himg]
  refine ⟨rfl, ?_, ?_, ?_⟩
  · show ProvStep.reachabilityWait ∉
      [ProvStep.cleanupPrior, .allocatePort, .imageLookup, .createContainer,
       .startContainer, .inspectPort, .returnUrl]
    decide
  · unfold isRunning dockerFind
    simp
  · exact waitLoop_never reach 15000 hreach 17 0

/-- Witness for C1's amended claim with a concrete provision call and a
never-reachable instance. -/
theorem provision_returns_immediately_client_waits_witness :
    (spinUpContainer ⟨[], []⟩ "Python" 2 4100 "c9").result =
      .ok { url := localhostUrl 4100, containerId := "c9" } ∧
    ProvStep.reachabilityWait ∉ (spinUpContainer ⟨[], []⟩ "Python" 2 4100 "c9").trace ∧
    isRunning (spinUpContainer ⟨[], []⟩ "Python" 2 4100 "c9").state.docker "c9" ∧
    waitForCodespace (fun _ => false) = false :=
  provision_returns_immediately_client_waits ⟨[], []⟩ "Python" 2 4100 "c9"
    (by decide) (fun _ => false) (fun _ => rfl)

/-! ### Decimal rendering is injective (for the capture-target claim) -/

/-- Decimal value of a digit-character list: the parse inverse of
`Nat.toDigitsCore`. -/
def decDigitsValue (l : List Char) : Nat :=
  l.foldl (fun a c => a * 10 + (c.toNat - 48)) 0

theorem decDigitsValue_append_singleton (l : List Char) (c : Char) :
    decDigitsValue (l ++ [c]) = decDigitsValue l * 10 + (c.toNat - 48) := by
  unfold decDigitsValue
  rw [List.foldl_append]
  rfl

theorem digitChar_toNat_sub (m : Nat) (h : m < 10) :
    (Nat.digitChar m).toNat - 48 = m := by
  interval_cases m <;> rfl

theorem toDigitsCore_shift (fuel : Nat) : ∀ (n : Nat) (ds : List Char),
    Nat.toDigitsCore 10 fuel n ds = Nat.toDigitsCore 10 fuel n [] ++ ds := by
  induction fuel with
  | zero => intro n ds; rfl
  | succ f ih =>
    intro n ds
    simp only [Nat.toDigitsCore]
    by_cases h : n / 10 = 0
    · simp [h]
    · simp only [h, if_false]
      rw [ih (n / 10) (Nat.digitChar (n % 10) :: ds), ih (n / 10) [Nat.digitChar (n % 10)]]
      simp

theorem decDigitsValue_toDigitsCore : ∀ fuel n : Nat, n < 10 ^ fuel →
    decDigitsValue (Nat.toDigitsCore 10 fuel n []) = n := by
  intro fuel
  induction fuel with
  | zero =>
    intro n h
    rw [pow_zero] at h
    interval_cases n
    rfl
  | succ f ih =>
    intro n h
    simp only [Nat.toDigitsCore]
    by_cases hz : n / 10 = 0
    · simp only [hz, if_true]
      have hval : decDigitsValue [Nat.digitChar (n % 10)] = n % 10 := by
        unfold decDigitsValue
        simp [digitChar_toNat_sub (n % 10) (Nat.mod_lt n (by norm_num))]
      rw [hval]
      omega
    · simp only [hz, if_false]
      rw [toDigitsCore_shift, decDigitsValue_append_singleton]
      have hdiv : n / 10 < 10 ^ f := by
        rw [pow_succ] at h
        omega
      rw [ih (n / 10) hdiv, digitChar_toNat_sub (n % 10) (Nat.mod_lt n (by norm_num))]
      omega

theorem decDigitsValue_toDigits (n : Nat) :
    decDigitsValue (Nat.toDigits 10 n) = n := by
  unfold Nat.toDigits
  refine decDigitsValue_toDigitsCore (n + 1) n ?_
  calc n < 2 ^ n := Nat.lt_two_pow n
    _ ≤ 2 ^ (n + 1) := Nat.pow_le_pow_right (by norm_num) (Nat.le_succ n)
    _ ≤ 10 ^ (n + 1) := Nat.pow_le_pow_left (by norm_num) (n + 1)

theorem natRepr_data_inj {m n : Nat}
    (h : (Nat.repr m).data = (Nat.repr n).data) : m = n := by
  have hdig : Nat.toDigits 10 m = Nat.toDigits 10 n := h
  rw [← decDigitsValue_toDigits m, hdig, decDigitsValue_toDigits n]

theorem localhostUrl_inj {a b : Nat} (h : localhostUrl a = localhostUrl b) : a = b := by
  apply natRepr_data_inj
  have hdata : "http://localhost:".data ++ (Nat.repr a).data =
      "http://localhost:".data ++ (Nat.repr b).data := congrArg String.data h
  exact List.append_cancel_left hdata

/-- C10: the `/api/submit` handler computes its capture target from the
userId alone (`http://localhost:${8080 + userId}`), while a successful
provision publishes the editor at the freely allocated `hostPort`; the
capture target coincides with the provisioned `editorUrl` exactly when that
port happens to be `8080 + userId`. -/
theorem submit_capture_target_independent_of_provision (s : ProvState)
    (subject : String) (u p : Nat) (id : String)
    (hsub : subject ∈ supportedSubjects) :
    (spinUpContainer s subject u p id).result =
      .ok { url := localhostUrl p, containerId := id } ∧
    submitContainerUrl u = localhostUrl (8080 + u) ∧
    (submitContainerUrl u = localhostUrl p ↔ 8080 + u = p) := by
  obtain ⟨img, himg⟩ := subjectToImage_of_mem hsub
  rw [spinUpContainer_of_some himg]
  refine ⟨rfl, rfl, ?_, ?_⟩
  · intro h
    exact localhostUrl_inj h
  · intro h
    rw [show submitContainerUrl u = localhostUrl (8080 + u) from rfl, h]

/-- Witness for C10: user 1's submission capture targets port 8081, while
the workspace was provisioned on port 4000. -/
theorem submit_capture_target_independent_of_provision_witness :
    (spinUpContainer ⟨[], []⟩ "JavaScript" 1 4000 "c1").result =
      .ok { url := localhostUrl 4000, containerId := "c1" } ∧
    submitContainerUrl 1 = localhostUrl (8080 + 1) ∧
    (submitContainerUrl 1 = localhostUrl 4000 ↔ 8080 + 1 = 4000) :=
  submit_capture_target_independent_of_provision ⟨[], []⟩ "JavaScript" 1 4000 "c1"
    (by decide)

end Hopeless
